import Mathlib

/-!
# Verification of the multi-source price aggregation handler

A shallow embedding of the price-fetching serverless handler of the
game-deal-buddy repository (`supabase/functions/fetch-game-prices/index.ts`,
which contains three concatenated variants of the handler, called V1, V2 and
V3 below in order of appearance, plus the further variant `unnamed/part_000`).
Pure computations are translated to Lean functions; the stateful request
handler is modelled as a function from its environment (parsed request body,
cache table contents, outcome of every outbound HTTP call) to the produced
HTTP response together with an ordered trace of its side effects.

JavaScript numbers are modelled as exact rationals; `null`-able numeric
fields as `Option ℚ`.  A thrown JavaScript value is either an `Error`
carrying a message or some other value, matching the
`error instanceof Error ? error.message : 'Unknown error'` discrimination of
the source's top-level catch block.
-/

namespace GameDealBuddy

/-- A thrown JavaScript value: an `Error` object with a message, or any
other thrown value (the source distinguishes exactly these two cases). -/
inductive JsThrown
  | errorObj (message : String)
  | nonError
deriving Repr, DecidableEq

/-- Outcome of one `await fetch(...)` (plus, where applicable, the
subsequent `await res.json()`): either the whole step threw (network error
or malformed JSON body), or it produced a parsed payload. -/
inductive FetchOutcome (α : Type)
  | thrown (e : JsThrown)
  | ok (payload : α)
deriving Repr, DecidableEq

/-- The `StorePrice` record of the source (`interface StorePrice`). -/
structure StorePrice where
  store : String
  price : String
  originalPrice : String
  discount : Int
  buyUrl : String
  available : Bool
  numericPrice : Option ℚ
  numericOriginalPrice : Option ℚ
deriving Repr, DecidableEq

/-- `Number.prototype.toFixed(2)` on an exact rational: round to a whole
number of hundredths and print with two decimal places.  No claim inspects
these formatted strings; the definition only keeps them deterministic. -/
def toFixed2 (q : ℚ) : String :=
  let c : Int := round (q * 100)
  toString (c / 100) ++ "." ++ (if (c % 100).natAbs < 10 then "0" else "")
    ++ toString (c % 100).natAbs

/-- `encodeURIComponent`.  Percent-escaping of the query string is not
observable by any property considered here, so the embedding keeps the raw
string. -/
def encodeURIComponent (s : String) : String := s

/-! ## Steam appdetails payloads (name resolution and the Steam adapter) -/

/-- `price_overview` of the Steam appdetails payload.  `final` and
`initial` are integer minor units (centavos) as delivered upstream. -/
structure SteamPriceOverview where
  final : ℚ
  initial : ℚ
  discount_percent : Int
  final_formatted : String
deriving Repr, DecidableEq

/-- `steamData[appid].data`: the fields the handler reads. -/
structure SteamAppData where
  name : Option String
  price_overview : Option SteamPriceOverview
deriving Repr, DecidableEq

/-- `steamData[appid]`: `success` flag plus optional `data`. -/
structure SteamAppEntry where
  success : Bool
  data : Option SteamAppData
deriving Repr, DecidableEq

/-- The parsed appdetails body, i.e. `steamData[appid]` which may be
absent when the response object lacks the key. -/
abbrev SteamAppDetails := Option SteamAppEntry

/-- Name resolution (V1 lines 79–89; V2/V3 have the identical block):
`gameName` stays `''` unless `steamInfoData[appid]?.success &&
steamInfoData[appid]?.data?.name` is truthy.  When the upstream name is the
empty string the assignment is skipped in the source, which produces the
same value `''` as taking the name directly. -/
def gameNameOf (outcome : FetchOutcome SteamAppDetails) : String :=
  match outcome with
  | .thrown _ => ""
  | .ok none => ""
  | .ok (some entry) =>
    if entry.success then
      match entry.data with
      | some d => d.name.getD ""
      | none => ""
    else ""

/-- The unavailable Steam entry pushed by the `else` branch and by the
catch block of the Steam section (identical in V1/V2/V3). -/
def steamUnavailable (appid : String) : StorePrice :=
  { store := "Steam"
    price := "N/A"
    originalPrice := "N/A"
    discount := 0
    buyUrl := "https://store.steampowered.com/app/" ++ appid
    available := false
    numericPrice := none
    numericOriginalPrice := none }

/-- The Steam adapter section (V1 lines 92–135; textually identical in V2
and V3): on success with a `price_overview` push an available entry with
the minor-unit amounts divided by 100; otherwise (missing key, `success`
false, no `price_overview`, or a thrown fetch/parse) push the unavailable
entry. -/
def steamEntry (appid : String) (outcome : FetchOutcome SteamAppDetails) : StorePrice :=
  match outcome with
  | .thrown _ => steamUnavailable appid
  | .ok payload =>
    match payload with
    | some entry =>
      if entry.success then
        match entry.data with
        | some d =>
          match d.price_overview with
          | some priceData =>
            let finalPrice := priceData.final / 100
            let initialPrice := priceData.initial / 100
            { store := "Steam"
              price := priceData.final_formatted
              originalPrice :=
                if 0 < initialPrice then "R$ " ++ toFixed2 initialPrice
                else priceData.final_formatted
              discount := priceData.discount_percent
              buyUrl := "https://store.steampowered.com/app/" ++ appid
              available := true
              numericPrice := some finalPrice
              numericOriginalPrice :=
                some (if 0 < initialPrice then initialPrice else finalPrice) }
          | none => steamUnavailable appid
        | none => steamUnavailable appid
      else steamUnavailable appid
    | none => steamUnavailable appid

/-! ## The V1 GOG adapter (catalog search plus per-product price lookup) -/

/-- One element of `gogData.products` as read by V1 (lines 154–161). -/
structure GogProduct where
  id : String
  title : String
  slug : String
deriving Repr, DecidableEq

/-- The parsed `catalog.gog.com` response together with `gogResponse.ok`.
A payload whose `products` key is absent or empty is the empty list. -/
structure GogCatalogResp where
  httpOk : Bool
  products : List GogProduct
deriving Repr, DecidableEq

/-- One element of `priceData._embedded.prices` (V1 lines 168–172).
`finalPrice` and `basePrice` are minor-unit amounts; the source applies
`parseFloat` to the upstream strings, so the embedding carries the parsed
rational values. -/
structure GogPriceItem where
  finalPrice : ℚ
  basePrice : ℚ
  discountPercentage : Option Int
deriving Repr, DecidableEq

/-- The parsed `api.gog.com/products/{id}/prices` response together with
`priceResponse.ok`. -/
structure GogPricesResp where
  httpOk : Bool
  prices : List GogPriceItem
deriving Repr, DecidableEq

/-- The V1 GOG section (lines 138–202).  It runs only when a game name was
resolved; every failure path (thrown fetch or parse, non-2xx status, empty
product list, thrown or non-2xx price lookup, empty price list) is caught
or skipped locally and contributes no observation. -/
def gogEntryV1 (gameName : String) (catalog : FetchOutcome GogCatalogResp)
    (priceFetch : FetchOutcome GogPricesResp) : Option StorePrice :=
  if gameName = "" then none
  else
    match catalog with
    | .thrown _ => none
    | .ok c =>
      if c.httpOk then
        match c.products with
        | [] => none
        | product :: _ =>
          match priceFetch with
          | .thrown _ => none
          | .ok pr =>
            if pr.httpOk then
              match pr.prices with
              | [] => none
              | price :: _ =>
                let finalPrice := price.finalPrice / 100
                let basePrice := price.basePrice / 100
                let discount := price.discountPercentage.getD 0
                some { store := "GOG"
                       price := "R$ " ++ toFixed2 finalPrice
                       originalPrice := "R$ " ++ toFixed2 basePrice
                       discount := discount
                       buyUrl := "https://www.gog.com/game/" ++ product.slug
                       available := true
                       numericPrice := some finalPrice
                       numericOriginalPrice := some basePrice }
            else none
      else none

/-- The V1 `prices` array after the adapter section: the Steam entry is
always pushed, the GOG entry only when one was found. -/
def pricesV1 (appid : String) (steamInfo steamPrice : FetchOutcome SteamAppDetails)
    (catalog : FetchOutcome GogCatalogResp) (gogPrices : FetchOutcome GogPricesResp) :
    List StorePrice :=
  steamEntry appid steamPrice ::
    (gogEntryV1 (gameNameOf steamInfo) catalog gogPrices).toList

/-- V1 line 205: `const finalPrices = prices;` — the response list is the
pushed observations themselves, with no per-store placeholder fill-in. -/
def finalPricesV1 (appid : String) (steamInfo steamPrice : FetchOutcome SteamAppDetails)
    (catalog : FetchOutcome GogCatalogResp) (gogPrices : FetchOutcome GogPricesResp) :
    List StorePrice :=
  pricesV1 appid steamInfo steamPrice catalog gogPrices

/-! ## Cache table, freshness query and upsert eligibility -/

/-- One persisted `game_prices` row.  `last_updated` is an epoch-millisecond
timestamp.  The `numeric_price` column arrives as a decimal string and is
`parseFloat`-ed by every reader; the embedding carries the numeric value
(a stored zero is a non-empty string, hence truthy, in every filter the
source applies, which agrees with carrying `some 0`). -/
structure CacheRow where
  appid : String
  store : String
  price : String
  original_price : String
  discount : Int
  buy_url : String
  available : Bool
  numeric_price : Option ℚ
  numeric_original_price : Option ℚ
  last_updated : Int
deriving Repr, DecidableEq

/-- The cache read (V1 lines 42–46, V3 lines 585–589): select the rows for
`appid` whose `last_updated` is at or after the cutoff `now - one hour`.
Rows older than the cutoff are not returned at all. -/
def cacheQuery (db : List CacheRow) (appid : String) (cutoff : Int) : List CacheRow :=
  db.filter (fun r => r.appid == appid && decide (cutoff ≤ r.last_updated))

/-- `availableStores` (V1 line 48, V3 line 591): among the queried rows,
those with `available` truthy and a truthy, positive `numeric_price`. -/
def availableStoresCount (rows : List CacheRow) : Nat :=
  (rows.filter (fun p =>
    p.available && (match p.numeric_price with
      | some q => decide (q ≠ 0) && decide (0 < q)
      | none => false))).length

/-- The V1 cache-hit test (line 51): at least two queried rows and at
least one available store among them. -/
def cacheHitV1 (rows : List CacheRow) : Bool :=
  decide (2 ≤ rows.length) && decide (1 ≤ availableStoresCount rows)

/-- The V3 cache-hit test (line 593): exactly three queried rows and at
least two available stores among them. -/
def cacheHitV3 (rows : List CacheRow) : Bool :=
  decide (rows.length = 3) && decide (2 ≤ availableStoresCount rows)

/-- Mapping one cached row back to a response entry (V1 lines 55–64).
`cp.numeric_price ? parseFloat(cp.numeric_price) : null` keeps the stored
value when present (the stored string is non-empty, hence truthy). -/
def cachedEntry (cp : CacheRow) : StorePrice :=
  { store := cp.store
    price := cp.price
    originalPrice := cp.original_price
    discount := cp.discount
    buyUrl := cp.buy_url
    available := cp.available
    numericPrice := cp.numeric_price
    numericOriginalPrice := cp.numeric_original_price }

/-- The record handed to `supabase.from('game_prices').upsert` (V1 lines
214–226, identical in V2/V3 and part_000). -/
structure UpsertRow where
  appid : String
  store : String
  price : String
  original_price : String
  discount : Int
  buy_url : String
  available : Bool
  numeric_price : Option ℚ
  numeric_original_price : Option ℚ
deriving Repr, DecidableEq

/-- Building the upsert record from a response entry. -/
def toUpsertRow (appid : String) (p : StorePrice) : UpsertRow :=
  { appid := appid
    store := p.store
    price := p.price
    original_price := p.originalPrice
    discount := p.discount
    buy_url := p.buyUrl
    available := p.available
    numeric_price := p.numericPrice
    numeric_original_price := p.numericOriginalPrice }

/-- The write-eligibility test of the persistence loop in V1/V2/V3
(`price.available && price.numericPrice && price.numericPrice > 0`):
`available` truthy, `numericPrice` truthy (non-null and non-zero) and
positive. -/
def persistEligible (p : StorePrice) : Bool :=
  p.available && (match p.numericPrice with
    | some q => decide (q ≠ 0) && decide (0 < q)
    | none => false)

/-- The rows upserted by the persistence loop of V1/V2/V3 (V1 lines
210–229, V2 510–529, V3 848–867), in iteration order. -/
def upsertedRows (appid : String) (finalPrices : List StorePrice) : List UpsertRow :=
  (finalPrices.filter persistEligible).map (toUpsertRow appid)

/-- The persistence loop of `unnamed/part_000` (lines 326–343): every
entry of `finalPrices` is upserted, with no eligibility test at all. -/
def upsertedRowsPart000 (appid : String) (finalPrices : List StorePrice) : List UpsertRow :=
  finalPrices.map (toUpsertRow appid)

/-! ## The V2 GOG adapter (`embed.gog.com` search) and Epic estimation -/

/-- `product.price` of the `embed.gog.com` payload (V2 lines 424–431).
The amounts are major-unit EUR strings; the source `parseFloat`s them, so
the embedding carries the parsed values (absent or empty-string fields are
`none`; the source's extra `finalAmount !== '0'` string comparison is
modelled as the parsed value being ≠ 0). -/
structure GogEmbedPrice where
  finalAmount : Option ℚ
  baseAmount : Option ℚ
  discountPercentage : Option Int
deriving Repr, DecidableEq

/-- One element of `gogData.products` of the V2 payload. -/
structure GogEmbedProduct where
  title : String
  url : String
  price : Option GogEmbedPrice
deriving Repr, DecidableEq

/-- The parsed `embed.gog.com` response with `gogResponse.ok`. -/
structure GogEmbedResp where
  httpOk : Bool
  products : List GogEmbedProduct
deriving Repr, DecidableEq

/-- The V2 GOG section (lines 402–454).  A non-2xx status throws into the
same catch block; every failure path contributes no observation.  On
success the EUR amount is converted with the hardcoded rate 6.2 and
`baseAmount || finalAmount` supplies the original price. -/
def gogEntryV2 (gameName : String) (resp : FetchOutcome GogEmbedResp) : Option StorePrice :=
  if gameName = "" then none
  else
    match resp with
    | .thrown _ => none
    | .ok r =>
      if r.httpOk then
        match r.products with
        | [] => none
        | product :: _ =>
          match product.price with
          | none => none
          | some pr =>
            match pr.finalAmount with
            | none => none
            | some fa =>
              if fa = 0 then none
              else
                let eurToBrl : ℚ := 62 / 10
                let finalPriceEur := fa
                let originalPriceEur := pr.baseAmount.getD fa
                let finalPrice := finalPriceEur * eurToBrl
                let originalPrice := originalPriceEur * eurToBrl
                let discount := pr.discountPercentage.getD 0
                some { store := "GOG"
                       price := "R$ " ++ toFixed2 finalPrice
                       originalPrice := "R$ " ++ toFixed2 originalPrice
                       discount := discount
                       buyUrl := "https://www.gog.com" ++ product.url
                       available := true
                       numericPrice := some finalPrice
                       numericOriginalPrice := some originalPrice }
      else none

/-- The V2 Epic Games section (lines 458–480): when a game name was
resolved and the `prices` array already holds a Steam entry with a truthy
`numericPrice`, push a fabricated Epic entry at 95% of the Steam amount,
marked `available: true`. -/
def epicEntryV2 (gameName : String) (pricesSoFar : List StorePrice) : Option StorePrice :=
  if gameName = "" then none
  else
    match pricesSoFar.find? (fun p => p.store == "Steam") with
    | none => none
    | some steamPrice =>
      match steamPrice.numericPrice with
      | none => none
      | some np =>
        if np = 0 then none
        else
          let epicPrice := np * (95 / 100)
          some { store := "Epic Games"
                 price := "R$ " ++ toFixed2 epicPrice
                 originalPrice := "R$ " ++ toFixed2 epicPrice
                 discount := 0
                 buyUrl := "https://store.epicgames.com/pt-BR/browse?q="
                   ++ encodeURIComponent gameName
                 available := true
                 numericPrice := some epicPrice
                 numericOriginalPrice := some epicPrice }

/-- The V2 `prices` array after all three adapter sections (Steam, GOG,
Epic), preserving push order.  The Epic section searches the accumulated
array for the Steam entry, as the source does. -/
def pricesV2 (appid : String) (steamInfo steamPrice : FetchOutcome SteamAppDetails)
    (gog : FetchOutcome GogEmbedResp) : List StorePrice :=
  let gameName := gameNameOf steamInfo
  let afterSteam := [steamEntry appid steamPrice]
  let afterGog := afterSteam ++ (gogEntryV2 gameName gog).toList
  afterGog ++ (epicEntryV2 gameName afterGog).toList

/-! ## Reconciliation into the configured store list (V2, V3, part_000) -/

/-- The configured store list of V2 (line 483). -/
def storeNamesV2 : List String := ["Steam", "GOG", "Epic Games"]

/-- The configured store list of V3 (line 821) and of part_000. -/
def storeNamesV3 : List String := ["Steam", "Nuuvem", "ENEBA"]

/-- The synthesized placeholder of V2 (lines 491–504): "Consulte a loja",
store-specific fallback URL, unavailable, no numeric amounts. -/
def placeholderV2 (appid storeName : String) : StorePrice :=
  { store := storeName
    price := "Consulte a loja"
    originalPrice := "Consulte a loja"
    discount := 0
    buyUrl :=
      if storeName = "Steam" then "https://store.steampowered.com/app/" ++ appid
      else if storeName = "GOG" then "https://www.gog.com/games"
      else "https://store.epicgames.com/pt-BR/"
    available := false
    numericPrice := none
    numericOriginalPrice := none }

/-- The synthesized placeholder of V3 (lines 829–842). -/
def placeholderV3 (appid storeName : String) : StorePrice :=
  { store := storeName
    price := "Consulte a loja"
    originalPrice := "Consulte a loja"
    discount := 0
    buyUrl :=
      if storeName = "Steam" then "https://store.steampowered.com/app/" ++ appid
      else if storeName = "Nuuvem" then
        "https://www.nuuvem.com/br-pt/catalog/price/search/" ++ appid
      else "https://www.eneba.com/store/all?text=" ++ appid
    available := false
    numericPrice := none
    numericOriginalPrice := none }

/-- The synthesized placeholder of part_000 (lines 285–301): identical to
the V3 one except for the "Indisponível" display strings. -/
def placeholderPart000 (appid storeName : String) : StorePrice :=
  { store := storeName
    price := "Indisponível"
    originalPrice := "Indisponível"
    discount := 0
    buyUrl :=
      if storeName = "Steam" then "https://store.steampowered.com/app/" ++ appid
      else if storeName = "Nuuvem" then
        "https://www.nuuvem.com/br-pt/catalog/price/search/" ++ appid
      else "https://www.eneba.com/store/all?text=" ++ appid
    available := false
    numericPrice := none
    numericOriginalPrice := none }

/-- The per-store selection inside the reconciliation map of V2/V3 and
part_000: `prices.find(p => p.store === storeName)` — the first pushed
observation for the store, in arrival order. -/
def storeLookup (prices : List StorePrice) (storeName : String) : Option StorePrice :=
  prices.find? (fun p => p.store == storeName)

/-- The V2 reconciliation (lines 483–505): one entry per configured store,
the found observation or else the placeholder. -/
def finalPricesV2 (appid : String) (prices : List StorePrice) : List StorePrice :=
  storeNamesV2.map (fun storeName =>
    (storeLookup prices storeName).getD (placeholderV2 appid storeName))

/-- The V3 reconciliation (lines 821–843). -/
def finalPricesV3 (appid : String) (prices : List StorePrice) : List StorePrice :=
  storeNamesV3.map (fun storeName =>
    (storeLookup prices storeName).getD (placeholderV3 appid storeName))

/-- The part_000 reconciliation (lines 280–302). -/
def finalPricesPart000 (appid : String) (prices : List StorePrice) : List StorePrice :=
  storeNamesV3.map (fun storeName =>
    (storeLookup prices storeName).getD (placeholderPart000 appid storeName))

/-! ## Trust tiers (spec-modelled) -/

/-- Modelled from the spec: the `trustTier` ordinal of §3 —
{Authoritative, DirectAPI, FuzzySearch, Scraped, Estimated} — is absent
from the source's `StorePrice`; the spec assigns a tier to each adapter
variant (§4.3). -/
inductive TrustTier
  | Estimated
  | Scraped
  | FuzzySearch
  | DirectAPI
  | Authoritative
deriving Repr, DecidableEq

/-- Modelled from the spec: the ordinal rank of a trust tier, higher is
more trusted. -/
def tierRank : TrustTier → Nat
  | .Estimated => 0
  | .Scraped => 1
  | .FuzzySearch => 2
  | .DirectAPI => 3
  | .Authoritative => 4

/-- Modelled from the spec: the tier of each adapter of the V2 handler —
Steam is the authoritative direct adapter, GOG a direct-API secondary
adapter, and every V2 Epic Games entry is produced by the estimation
adapter (§4.3 variant 5). -/
def tierOfStoreV2 (storeName : String) : TrustTier :=
  if storeName = "Steam" then .Authoritative
  else if storeName = "GOG" then .DirectAPI
  else .Estimated

/-- Modelled from the spec (§4.5 step 1): the observation the spec's
reconciler keeps for one store — the highest trust tier wins, ties are
broken by the lowest current amount (absent amounts compare as never
smaller). -/
def specReconcileKeep (obs : List (StorePrice × TrustTier)) (storeName : String) :
    Option (StorePrice × TrustTier) :=
  (obs.filter (fun o => o.1.store == storeName)).foldl
    (fun acc o =>
      match acc with
      | none => some o
      | some b =>
        if tierRank b.2 < tierRank o.2 then some o
        else if tierRank o.2 = tierRank b.2 then
          match o.1.numericPrice, b.1.numericPrice with
          | some oq, some bq => if oq < bq then some o else some b
          | some _, none => some o
          | _, _ => some b
        else some b)
    none

/-! ## The V1 request handler, with its response and side-effect trace -/

/-- The JSON body of a response: a `prices` list, an `error` object, or
the empty body of the pre-flight answer. -/
inductive ResponseBody
  | prices (entries : List StorePrice)
  | error (msg : String)
  | empty
deriving Repr, DecidableEq

/-- An HTTP response: status code (200 unless given) and body. -/
structure HttpResponse where
  status : Nat
  body : ResponseBody
deriving Repr, DecidableEq

/-- The outbound HTTP endpoints the V1 handler can call. -/
inductive Endpoint
  | steamAppDetails
  | gogCatalog
  | gogPrices
deriving Repr, DecidableEq

/-- One observable side effect of a handler run.  Each `await fetch`
contributes a `fetchStart` when the call is issued and a `fetchDone` when
it settles (fulfilled or rejected); because the source awaits every call
in place, the two are always adjacent in the trace. -/
inductive Effect
  | cacheRead (appid : String)
  | fetchStart (ep : Endpoint)
  | fetchDone (ep : Endpoint)
  | cacheWrite (row : UpsertRow)
deriving Repr, DecidableEq

/-- The start/settle pair of one awaited fetch. -/
def fetchEvts (ep : Endpoint) : List Effect :=
  [.fetchStart ep, .fetchDone ep]

/-- The fetch events of the V1 GOG section: no call without a resolved
name; the per-product price lookup is issued only when the catalog search
returned 2xx with a non-empty product list. -/
def gogFetchEvtsV1 (gameName : String) (catalog : FetchOutcome GogCatalogResp) :
    List Effect :=
  if gameName = "" then []
  else
    fetchEvts .gogCatalog ++
      match catalog with
      | .thrown _ => []
      | .ok c =>
        if c.httpOk then
          match c.products with
          | [] => []
          | _ :: _ => fetchEvts .gogPrices
        else []

/-- The parsed request body: the destructured `appid` field, absent when
the JSON object has no such key. -/
structure ReqBody where
  appid : Option String
deriving Repr, DecidableEq

/-- JavaScript falsiness of the destructured `appid` (`!appid`): absent
or the empty string.  (A numeric `appid` is not modelled; the collaborator
sends a string.) -/
def jsFalsyStr : Option String → Bool
  | none => true
  | some s => s == ""

/-- The top-level catch block (V1 lines 237–242, identical in V2/V3 and
part_000): status 500 with the thrown `Error`'s own message, or the
generic `'Unknown error'` for a non-`Error` value. -/
def errorResponse (e : JsThrown) : HttpResponse :=
  { status := 500
    body := .error (match e with
      | .errorObj message => message
      | .nonError => "Unknown error") }

/-- Everything outside the V1 handler that a run observes: the cache
table and its read-error flag, the current time, and the outcome of each
outbound call. -/
structure EnvV1 where
  db : List CacheRow
  cacheError : Bool
  now : Int
  steamInfo : FetchOutcome SteamAppDetails
  steamPrice : FetchOutcome SteamAppDetails
  catalog : FetchOutcome GogCatalogResp
  gogPrices : FetchOutcome GogPricesResp
deriving Repr, DecidableEq

/-- One hour in milliseconds (V1 line 41). -/
def oneHourMs : Int := 60 * 60 * 1000

/-- The V1 handler body (lines 25–242) for a non-OPTIONS request, as a
function from the parse outcome of `req.json()` and the environment to
the response and the ordered effect trace.  A thrown body parse reaches
the top-level catch before any side effect; a falsy `appid` returns the
400 validation response before any side effect; otherwise the cache is
read, served on a hit, and the fetch/reconcile/persist path runs on a
miss. -/
def handlerV1 (req : FetchOutcome ReqBody) (env : EnvV1) :
    HttpResponse × List Effect :=
  match req with
  | .thrown e => (errorResponse e, [])
  | .ok body =>
    if jsFalsyStr body.appid then
      ({ status := 400, body := .error "appid is required" }, [])
    else
      let appid := body.appid.getD ""
      let cutoff := env.now - oneHourMs
      let rows := cacheQuery env.db appid cutoff
      if !env.cacheError && cacheHitV1 rows then
        let cachedPricesList := rows.map cachedEntry
        let completePrices :=
          cachedPricesList.filter (fun p => p.store == "Steam" || p.store == "GOG")
        ({ status := 200, body := .prices completePrices },
         [.cacheRead appid])
      else
        let gameName := gameNameOf env.steamInfo
        let finalPrices :=
          finalPricesV1 appid env.steamInfo env.steamPrice env.catalog env.gogPrices
        let written := upsertedRows appid finalPrices
        ({ status := 200, body := .prices finalPrices },
         [.cacheRead appid] ++ fetchEvts .steamAppDetails ++ fetchEvts .steamAppDetails
           ++ gogFetchEvtsV1 gameName env.catalog
           ++ written.map .cacheWrite)

/-! ## Trace disciplines: serialized awaits versus a fan-out join -/

/-- A trace is serialized when every issued fetch settles before anything
else happens: each `fetchStart` is immediately followed by its own
`fetchDone`. -/
def serializedFetches : List Effect → Bool
  | [] => true
  | .fetchStart e :: rest =>
    match rest with
    | .fetchDone e' :: rest' => e == e' && serializedFetches rest'
    | _ => false
  | .fetchDone _ :: _ => false
  | .cacheRead _ :: rest => serializedFetches rest
  | .cacheWrite _ :: rest => serializedFetches rest

/-- Whether an effect issues a fetch. -/
def Effect.isStart : Effect → Bool
  | .fetchStart _ => true
  | _ => false

/-- The observable signature of a concurrent fan-out/fan-in (settle-all)
join over the adapter calls of one run: no call settles before a later
call has been issued — equivalently, once some fetch settles, no further
fetch starts. -/
def fanOutJoin : List Effect → Bool
  | [] => true
  | .fetchDone _ :: rest => rest.all (fun e => !e.isStart) && fanOutJoin rest
  | _ :: rest => fanOutJoin rest

/-- The stores the V1 handler is configured around: its cache-hit path
filters the response to exactly these two (line 67: "Return only Steam and
GOG prices from cache") and its fresh path pushes observations for at most
these two. -/
def storeNamesV1 : List String := ["Steam", "GOG"]

/-! ## Helper lemmas -/

theorem storeLookup_store {prices : List StorePrice} {s : String} {p : StorePrice}
    (h : storeLookup prices s = some p) : p.store = s := by
  have hp := List.find?_some h
  simpa using hp

theorem reconcileEntry_store (prices : List StorePrice) (p0 : StorePrice) (s : String)
    (hp0 : p0.store = s) : ((storeLookup prices s).getD p0).store = s := by
  cases h : storeLookup prices s
  · simpa using hp0
  · simpa using storeLookup_store h

theorem steamEntry_store (appid : String) (o : FetchOutcome SteamAppDetails) :
    (steamEntry appid o).store = "Steam" := by
  unfold steamEntry steamUnavailable
  repeat' split
  all_goals rfl

theorem gogEntryV2_store {gameName : String} {r : FetchOutcome GogEmbedResp}
    {p : StorePrice} (h : gogEntryV2 gameName r = some p) : p.store = "GOG" := by
  unfold gogEntryV2 at h
  repeat' split at h
  all_goals simp_all
  subst h; rfl

theorem epicEntryV2_store {gameName : String} {l : List StorePrice}
    {p : StorePrice} (h : epicEntryV2 gameName l = some p) : p.store = "Epic Games" := by
  unfold epicEntryV2 at h
  repeat' split at h
  all_goals simp_all
  subst h; rfl

theorem serializedFetches_cacheRead (a : String) (l : List Effect) :
    serializedFetches (.cacheRead a :: l) = serializedFetches l := rfl

theorem serializedFetches_fetchEvts (e : Endpoint) (l : List Effect) :
    serializedFetches (fetchEvts e ++ l) = serializedFetches l := by
  simp [fetchEvts, serializedFetches]

theorem serializedFetches_writes (rows : List UpsertRow) :
    serializedFetches (rows.map .cacheWrite) = true := by
  induction rows with
  | nil => rfl
  | cons r rest ih => simpa [serializedFetches] using ih

theorem serializedFetches_gog (gameName : String) (c : FetchOutcome GogCatalogResp)
    (l : List Effect) :
    serializedFetches (gogFetchEvtsV1 gameName c ++ l) = serializedFetches l := by
  unfold gogFetchEvtsV1
  by_cases hn : gameName = ""
  · simp [hn]
  · simp only [hn, if_false]
    rcases c with e | cr
    · simpa using serializedFetches_fetchEvts .gogCatalog l
    · by_cases hok : cr.httpOk = true
      · rcases hp : cr.products with _ | ⟨p, rest⟩
        · simpa [hok, hp] using serializedFetches_fetchEvts .gogCatalog l
        · simp only [hok, hp, if_true, List.append_assoc]
          rw [serializedFetches_fetchEvts, serializedFetches_fetchEvts]
      · simp only [hok, if_false]
        simpa using serializedFetches_fetchEvts .gogCatalog l

/-! ## Concrete example inputs used by the closed theorems -/

/-- A Steam appdetails outcome that resolves the name "Portal" and
carries no price data. -/
def steamNameOnly : FetchOutcome SteamAppDetails :=
  .ok (some { success := true, data := some { name := some "Portal", price_overview := none } })

/-- A 4999-centavo Steam price overview. -/
def steamPO4999 : SteamPriceOverview :=
  { final := 4999, initial := 4999, discount_percent := 0, final_formatted := "R$ 49,99" }

/-- The Steam appdetails entry carrying `steamPO4999`. -/
def steamEntry4999 : SteamAppEntry :=
  { success := true, data := some { name := some "Portal", price_overview := some steamPO4999 } }

/-- A Steam appdetails outcome with a 4999-centavo price. -/
def steamPriced : FetchOutcome SteamAppDetails := .ok (some steamEntry4999)

/-- A GOG catalog response with one product. -/
def gogCat1 : GogCatalogResp :=
  { httpOk := true, products := [{ id := "1", title := "Portal", slug := "portal" }] }

/-- A GOG price item of 4999 minor units. -/
def gogPriceItem4999 : GogPriceItem :=
  { finalPrice := 4999, basePrice := 4999, discountPercentage := none }

/-- A GOG prices response carrying `gogPriceItem4999`. -/
def gogPr1 : GogPricesResp := { httpOk := true, prices := [gogPriceItem4999] }

/-- An environment whose cache is empty, whose name resolution succeeds
and whose remaining calls fail or return nothing. -/
def envMiss : EnvV1 :=
  { db := []
    cacheError := false
    now := oneHourMs + 500
    steamInfo := steamNameOnly
    steamPrice := .thrown .nonError
    catalog := .ok { httpOk := true, products := [] }
    gogPrices := .ok { httpOk := true, prices := [] } }

/-- A fresh, available Steam cache row (time 1000, cutoff 500 below). -/
def rowSteamFresh : CacheRow :=
  { appid := "10", store := "Steam", price := "R$ 50.00", original_price := "R$ 50.00"
    discount := 0, buy_url := "https://store.steampowered.com/app/10", available := true
    numeric_price := some 50, numeric_original_price := some 50, last_updated := 1000 }

/-- A fresh, available GOG cache row. -/
def rowGogFresh : CacheRow :=
  { appid := "10", store := "GOG", price := "R$ 40.00", original_price := "R$ 40.00"
    discount := 0, buy_url := "https://www.gog.com/game/g", available := true
    numeric_price := some 40, numeric_original_price := some 40, last_updated := 1000 }

/-- A stale, available Nuuvem cache row for the same identifier, written
by an earlier run (a different handler variant persists Nuuvem rows into
the same shared table). -/
def rowNuuvemStale : CacheRow :=
  { appid := "10", store := "Nuuvem", price := "R$ 30.00", original_price := "R$ 30.00"
    discount := 0, buy_url := "https://www.nuuvem.com/item/n", available := true
    numeric_price := some 30, numeric_original_price := some 30, last_updated := 0 }

/-- A fresh, available ENEBA cache row. -/
def rowEnebaFresh : CacheRow :=
  { appid := "10", store := "ENEBA", price := "R$ 45.00", original_price := "R$ 45.00"
    discount := 0, buy_url := "https://www.eneba.com/e", available := true
    numeric_price := some 45, numeric_original_price := some 45, last_updated := 1000 }

/-- The environment of the stale-row scenario: two fresh rows and one
stale row for the identifier, all adapters down. -/
def envStale : EnvV1 :=
  { db := [rowSteamFresh, rowGogFresh, rowNuuvemStale]
    cacheError := false
    now := oneHourMs + 500
    steamInfo := .thrown .nonError
    steamPrice := .thrown .nonError
    catalog := .thrown .nonError
    gogPrices := .thrown .nonError }

/-- The fabricated Epic amount derived from the 4999-centavo Steam price:
95% of 49.99. -/
def epicPriceQ : ℚ := (4999 : ℚ) / 100 * (95 / 100)

/-- The Epic Games entry the V2 estimation section produces from the
4999-centavo Steam observation of a run whose resolved name is "Portal". -/
def epicObs : StorePrice :=
  { store := "Epic Games"
    price := "R$ " ++ toFixed2 epicPriceQ
    originalPrice := "R$ " ++ toFixed2 epicPriceQ
    discount := 0
    buyUrl := "https://store.epicgames.com/pt-BR/browse?q=" ++ encodeURIComponent "Portal"
    available := true
    numericPrice := some epicPriceQ
    numericOriginalPrice := some epicPriceQ }

/-- A GOG observation priced at 50, the more expensive of the pair. -/
def gogObsExpensive : StorePrice :=
  { store := "GOG", price := "R$ 50.00", originalPrice := "R$ 50.00", discount := 0
    buyUrl := "https://www.gog.com/game/a", available := true
    numericPrice := some 50, numericOriginalPrice := some 50 }

/-- A GOG observation priced at 40, the cheaper of the pair. -/
def gogObsCheap : StorePrice :=
  { store := "GOG", price := "R$ 40.00", originalPrice := "R$ 40.00", discount := 0
    buyUrl := "https://www.gog.com/game/b", available := true
    numericPrice := some 40, numericOriginalPrice := some 40 }

/-! ## Claims -/

/-- **C5.** A request whose body parses but whose `gameIdentifier`
(`appid`) is missing or empty gets the 400 validation response with an
error message, and the run performs no cache read, no cache write and no
adapter call: its effect trace is empty. -/
theorem validation_error_no_side_effects (body : ReqBody) (env : EnvV1)
    (h : jsFalsyStr body.appid = true) :
    handlerV1 (.ok body) env =
      ({ status := 400, body := .error "appid is required" }, []) := by
  simp [handlerV1, h]

/-- Witness for C5: the concrete request body with no `appid` field. -/
theorem validation_error_no_side_effects_witness :
    jsFalsyStr (ReqBody.mk none).appid = true ∧
    handlerV1 (.ok (ReqBody.mk none)) envMiss =
      ({ status := 400, body := .error "appid is required" }, []) :=
  ⟨by decide, validation_error_no_side_effects (ReqBody.mk none) envMiss (by decide)⟩

/-- **C10.** A request whose body cannot be parsed as JSON reaches the
top-level catch: the response has status 500 (not 400) and the failure
shape `error: string`, and the effect trace is empty — no cache read or
write and no upstream call happened. -/
theorem malformed_body_500 (e : JsThrown) (env : EnvV1) :
    (handlerV1 (.thrown e) env).1.status = 500 ∧
    (handlerV1 (.thrown e) env).1.status ≠ 400 ∧
    (∃ msg, (handlerV1 (.thrown e) env).1.body = .error msg) ∧
    (handlerV1 (.thrown e) env).2 = [] := by
  rcases e with m | _ <;> simp [handlerV1, errorResponse]

/-- **C7 counterexample.** The catch block copies a thrown `Error`'s own
message into the client payload, so two distinct internal error details
produce two distinct client-facing bodies; the claim that the body is the
same generic message for any two distinct details is false. -/
theorem error_details_leak :
    JsThrown.errorObj "GOG API error: 500" ≠ JsThrown.errorObj "Unexpected end of JSON input" ∧
    errorResponse (.errorObj "GOG API error: 500") ≠
      errorResponse (.errorObj "Unexpected end of JSON input") ∧
    (handlerV1 (.thrown (.errorObj "GOG API error: 500")) envMiss).1.body ≠
      (handlerV1 (.thrown (.errorObj "Unexpected end of JSON input")) envMiss).1.body := by
  refine ⟨by decide, by decide, by decide⟩

/-- **C7 (amended).** The error response leaks the thrown `Error`'s own
message to the client; only a thrown non-`Error` value yields the generic
"Unknown error" body, so identical client bodies are guaranteed only
between non-`Error` failures. -/
theorem error_payload_by_thrown_kind (m : String) (e e' : JsThrown)
    (h : e = .nonError) (h' : e' = .nonError) :
    errorResponse (.errorObj m) = { status := 500, body := .error m } ∧
    errorResponse e = { status := 500, body := .error "Unknown error" } ∧
    errorResponse e = errorResponse e' := by
  subst h h'
  exact ⟨rfl, rfl, rfl⟩

/-- Witness for C7 (amended), at a concrete message and concrete
non-`Error` thrown values. -/
theorem error_payload_by_thrown_kind_witness :
    errorResponse (.errorObj "boom") = { status := 500, body := .error "boom" } ∧
    errorResponse .nonError = { status := 500, body := .error "Unknown error" } ∧
    errorResponse .nonError = errorResponse .nonError :=
  error_payload_by_thrown_kind "boom" .nonError .nonError rfl rfl

/-- **C8.** Adapters whose upstream reports integer minor units divide by
100: the V1 Steam adapter turns `price_overview.final` cents into
`final / 100`, and the V1 GOG price lookup turns the minor-unit
`finalPrice` into `finalPrice / 100`. -/
theorem minor_units_divided_by_100 (appid : String) (entry : SteamAppEntry)
    (d : SteamAppData) (p : SteamPriceOverview) (gameName : String)
    (c : GogCatalogResp) (pr : GogPricesResp) (product : GogProduct)
    (rest : List GogProduct) (price : GogPriceItem) (prest : List GogPriceItem)
    (hs : entry.success = true) (hd : entry.data = some d)
    (hp : d.price_overview = some p)
    (hn : ¬ gameName = "") (hok : c.httpOk = true)
    (hprod : c.products = product :: rest)
    (hprok : pr.httpOk = true) (hprice : pr.prices = price :: prest) :
    (steamEntry appid (.ok (some entry))).numericPrice = some (p.final / 100) ∧
    ∃ o, gogEntryV1 gameName (.ok c) (.ok pr) = some o ∧
      o.numericPrice = some (price.finalPrice / 100) := by
  constructor
  · simp [steamEntry, hs, hd, hp]
  · simp only [gogEntryV1, if_neg hn, hok, hprod, hprok, hprice, if_true]
    exact ⟨_, rfl, rfl⟩

/-- Witness for C8: an upstream amount of 4999 cents yields a numeric
price of exactly 49.99, not 4999 and not 499900, on both adapters. -/
theorem minor_units_divided_by_100_witness :
    ((steamEntry "292030" (.ok (some steamEntry4999))).numericPrice =
        some (steamPO4999.final / 100) ∧
      ∃ o, gogEntryV1 "Portal" (.ok gogCat1) (.ok gogPr1) = some o ∧
        o.numericPrice = some (gogPriceItem4999.finalPrice / 100)) ∧
    (steamPO4999.final / 100 = 49.99 ∧ steamPO4999.final / 100 ≠ 4999 ∧
      steamPO4999.final / 100 ≠ 499900) := by
  constructor
  · exact minor_units_divided_by_100 "292030" steamEntry4999 _ _ "Portal" gogCat1 gogPr1
      _ [] gogPriceItem4999 [] rfl rfl rfl (by decide) rfl rfl rfl rfl
  · refine ⟨?_, ?_, ?_⟩ <;> norm_num [steamPO4999]

/-- **C1 counterexample.** In the V1 handler, the success response does
not cover the configured store list: at a concrete run with a resolved
name but no GOG data, the 200 response body holds a single Steam entry —
one entry fewer than the two configured stores, with the GOG store
omitted entirely rather than synthesized as an unavailable placeholder. -/
theorem missing_store_omitted_v1 :
    (handlerV1 (.ok (ReqBody.mk (some "292030"))) envMiss).1.status = 200 ∧
    (handlerV1 (.ok (ReqBody.mk (some "292030"))) envMiss).1.body =
      .prices [steamUnavailable "292030"] ∧
    [steamUnavailable "292030"].length ≠ storeNamesV1.length ∧
    "GOG" ∈ storeNamesV1 ∧
    (∀ p ∈ [steamUnavailable "292030"], ¬ p.store = "GOG") := by
  refine ⟨by decide, by decide, by decide, by decide, by decide⟩

/-- **C1 (amended).** The reconciliation of V2 and V3 returns exactly one
entry per configured store, in configured order with no duplicated store
name, synthesizing an unavailable placeholder for every configured store
with no observation; the V1 variant instead omits a configured store with
no observation from the success response. -/
theorem configured_store_reconciliation_v2_v3 :
    (∀ appid prices, (finalPricesV2 appid prices).map (fun p => p.store) = storeNamesV2) ∧
    (∀ appid prices, (finalPricesV3 appid prices).map (fun p => p.store) = storeNamesV3) ∧
    storeNamesV2.Nodup ∧ storeNamesV3.Nodup ∧
    (∀ appid prices s, s ∈ storeNamesV2 → storeLookup prices s = none →
      placeholderV2 appid s ∈ finalPricesV2 appid prices ∧
        (placeholderV2 appid s).available = false) ∧
    (∀ appid prices s, s ∈ storeNamesV3 → storeLookup prices s = none →
      placeholderV3 appid s ∈ finalPricesV3 appid prices ∧
        (placeholderV3 appid s).available = false) := by
  refine ⟨?_, ?_, by decide, by decide, ?_, ?_⟩
  · intro appid prices
    simp only [finalPricesV2, storeNamesV2, List.map_cons, List.map_nil]
    rw [reconcileEntry_store prices (placeholderV2 appid "Steam") "Steam" rfl,
        reconcileEntry_store prices (placeholderV2 appid "GOG") "GOG" rfl,
        reconcileEntry_store prices (placeholderV2 appid "Epic Games") "Epic Games" rfl]
  · intro appid prices
    simp only [finalPricesV3, storeNamesV3, List.map_cons, List.map_nil]
    rw [reconcileEntry_store prices (placeholderV3 appid "Steam") "Steam" rfl,
        reconcileEntry_store prices (placeholderV3 appid "Nuuvem") "Nuuvem" rfl,
        reconcileEntry_store prices (placeholderV3 appid "ENEBA") "ENEBA" rfl]
  · intro appid prices s hs hnone
    refine ⟨?_, rfl⟩
    simp only [storeNamesV2, List.mem_cons, List.mem_singleton, List.not_mem_nil,
      or_false] at hs
    rcases hs with rfl | rfl | rfl <;> simp [finalPricesV2, storeNamesV2, hnone]
  · intro appid prices s hs hnone
    refine ⟨?_, rfl⟩
    simp only [storeNamesV3, List.mem_cons, List.mem_singleton, List.not_mem_nil,
      or_false] at hs
    rcases hs with rfl | rfl | rfl <;> simp [finalPricesV3, storeNamesV3, hnone]

/-- Witness for C1 (amended): the V2 reconciliation of an empty
observation list yields one entry per configured store, and the missing
GOG store appears as its unavailable placeholder. -/
theorem configured_store_reconciliation_witness :
    (finalPricesV2 "10" []).map (fun p => p.store) = storeNamesV2 ∧
    ("GOG" ∈ storeNamesV2 ∧ storeLookup [] "GOG" = none) ∧
    (placeholderV2 "10" "GOG" ∈ finalPricesV2 "10" [] ∧
      (placeholderV2 "10" "GOG").available = false) :=
  ⟨configured_store_reconciliation_v2_v3.1 "10" [], ⟨by decide, by decide⟩,
    configured_store_reconciliation_v2_v3.2.2.2.2.1 "10" [] "GOG" (by decide) (by decide)⟩

/-- **C2 counterexample.** The persistence loop is not restricted to
available, positive, non-Estimated entries: the part_000 variant upserts
the unavailable Steam entry and the synthesized placeholders of a run
with no data, and the V2 variant upserts the fabricated Epic Games entry,
which the spec's tier assignment classes as Estimated. -/
theorem ineligible_rows_persisted :
    (∃ r ∈ upsertedRowsPart000 "10"
        (finalPricesPart000 "10" [steamEntry "10" (.thrown (.errorObj "network error"))]),
      r.available = false) ∧
    (epicEntryV2 (gameNameOf steamPriced) [steamEntry "10" steamPriced] = some epicObs ∧
      epicObs.store = "Epic Games" ∧ tierOfStoreV2 epicObs.store = .Estimated ∧
      epicObs.available = true ∧
      pricesV2 "10" steamPriced steamPriced (.thrown .nonError) =
        [steamEntry "10" steamPriced, epicObs] ∧
      toUpsertRow "10" epicObs ∈ upsertedRows "10"
        (finalPricesV2 "10" (pricesV2 "10" steamPriced steamPriced (.thrown .nonError)))) := by
  have hav : (steamEntry "10" steamPriced).available = true := rfl
  have hnp : (steamEntry "10" steamPriced).numericPrice = some ((4999 : ℚ) / 100) := rfl
  have hst : (steamEntry "10" steamPriced).store = "Steam" := rfl
  have hfind : List.find? (fun p => p.store == "Steam") [steamEntry "10" steamPriced] =
      some (steamEntry "10" steamPriced) :=
    List.find?_cons_of_pos _ (by simp [hst])
  have hepic : epicEntryV2 (gameNameOf steamPriced) [steamEntry "10" steamPriced] =
      some epicObs := by
    show epicEntryV2 "Portal" [steamEntry "10" steamPriced] = some epicObs
    unfold epicEntryV2
    rw [if_neg (show ¬("Portal" = "") by decide), hfind]
    simp only [hnp]
    rw [if_neg (show ¬((4999 : ℚ) / 100 = 0) by norm_num)]
    rfl
  have hgog : gogEntryV2 (gameNameOf steamPriced) (.thrown .nonError) = none := by
    unfold gogEntryV2
    split <;> rfl
  have hprices : pricesV2 "10" steamPriced steamPriced (.thrown .nonError) =
      [steamEntry "10" steamPriced, epicObs] := by
    simp [pricesV2, hgog, hepic]
  have hfp : finalPricesV2 "10" [steamEntry "10" steamPriced, epicObs] =
      [steamEntry "10" steamPriced, placeholderV2 "10" "GOG", epicObs] := by
    unfold finalPricesV2 storeNamesV2 storeLookup
    simp +decide [List.find?, hst, epicObs]
  have he1 : persistEligible (steamEntry "10" steamPriced) = true := by
    simp only [persistEligible, hav, hnp, Bool.true_and]
    norm_num
  have he2 : persistEligible epicObs = true := by
    simp only [persistEligible, epicObs, Bool.true_and]
    norm_num [epicPriceQ]
  have he3 : persistEligible (placeholderV2 "10" "GOG") = false := rfl
  refine ⟨by decide, hepic, rfl, rfl, rfl, hprices, ?_⟩
  rw [hprices, hfp]
  simp [upsertedRows, List.filter_cons, he1, he2, he3]

/-- **C2 (amended).** Every row the V1/V2/V3 persistence loop upserts
satisfies `available = true` and a positive numeric price, but nothing
excludes Estimated-tier entries (the fabricated Epic Games price passes
the filter, see the counterexample), and the part_000 variant persists
every final entry, placeholders included. -/
theorem persistence_filter_v123 :
    (∀ appid l r, r ∈ upsertedRows appid l →
      r.available = true ∧ ∃ q, r.numeric_price = some q ∧ 0 < q) ∧
    (∀ appid l p, p ∈ l → toUpsertRow appid p ∈ upsertedRowsPart000 appid l) := by
  constructor
  · intro appid l r hr
    simp only [upsertedRows, List.mem_map, List.mem_filter] at hr
    obtain ⟨p, ⟨hpl, hpe⟩, rfl⟩ := hr
    simp only [persistEligible, Bool.and_eq_true] at hpe
    obtain ⟨hav, hnp⟩ := hpe
    refine ⟨hav, ?_⟩
    cases hq : p.numericPrice with
    | none => rw [hq] at hnp; simp at hnp
    | some q =>
      rw [hq] at hnp
      simp only [Bool.and_eq_true, decide_eq_true_eq] at hnp
      exact ⟨q, by simp [toUpsertRow, hq], hnp.2⟩
  · intro appid l p hp
    exact List.mem_map_of_mem _ hp

/-- Witness for C2 (amended), at a concrete available 40-priced entry. -/
theorem persistence_filter_witness :
    ((toUpsertRow "10" gogObsCheap).available = true ∧
      ∃ q, (toUpsertRow "10" gogObsCheap).numeric_price = some q ∧ 0 < q) ∧
    toUpsertRow "10" gogObsCheap ∈ upsertedRowsPart000 "10" [gogObsCheap] :=
  ⟨persistence_filter_v123.1 "10" [gogObsCheap] _ (by decide),
    persistence_filter_v123.2 "10" [gogObsCheap] _ (by decide)⟩

/-- **C3 counterexample.** Same-store conflict resolution does not keep
the higher-trust or (on ties) cheaper observation: with two GOG
observations of equal spec trust tier, the code keeps whichever arrived
first — here the more expensive one — and swapping the arrival order
changes the reconciled output, while the spec's reconciler keeps the
cheaper one in both orders. -/
theorem reconcile_first_wins_counterexample :
    gogObsExpensive.store = "GOG" ∧ gogObsCheap.store = "GOG" ∧
    tierOfStoreV2 gogObsExpensive.store = tierOfStoreV2 gogObsCheap.store ∧
    gogObsCheap.numericPrice = some 40 ∧ gogObsExpensive.numericPrice = some 50 ∧
    storeLookup [gogObsExpensive, gogObsCheap] "GOG" = some gogObsExpensive ∧
    storeLookup [gogObsCheap, gogObsExpensive] "GOG" = some gogObsCheap ∧
    finalPricesV2 "1" [gogObsExpensive, gogObsCheap] ≠
      finalPricesV2 "1" [gogObsCheap, gogObsExpensive] ∧
    specReconcileKeep [(gogObsExpensive, .DirectAPI), (gogObsCheap, .DirectAPI)] "GOG" =
      some (gogObsCheap, .DirectAPI) ∧
    specReconcileKeep [(gogObsCheap, .DirectAPI), (gogObsExpensive, .DirectAPI)] "GOG" =
      some (gogObsCheap, .DirectAPI) := by
  refine ⟨by decide, by decide, by decide, by decide, by decide, by decide, by decide,
    by decide, by decide, by decide⟩

/-- **C3 (amended).** The reconciled output keeps the first observation
for a store in arrival order, regardless of trust or price; within one
run of the V2 adapter section at most one observation per store is ever
produced, so the conflict policy is never exercised on real runs. -/
theorem reconcile_keeps_first_arrival (s : String) (p : StorePrice) (l : List StorePrice)
    (h : p.store = s) :
    storeLookup (p :: l) s = some p ∧
    ∀ appid si sp g, ((pricesV2 appid si sp g).map (fun o => o.store)).Nodup := by
  constructor
  · unfold storeLookup
    rw [List.find?_cons_of_pos _ (by simp [h])]
  · intro appid si sp g
    have hsteam := steamEntry_store appid sp
    simp only [pricesV2]
    cases hg : gogEntryV2 (gameNameOf si) g with
    | none =>
      cases he : epicEntryV2 (gameNameOf si) ([steamEntry appid sp] ++ none.toList) with
      | none => simp [hsteam]
      | some pe => simp [hsteam, epicEntryV2_store he]
    | some pg =>
      cases he : epicEntryV2 (gameNameOf si) ([steamEntry appid sp] ++ (some pg).toList) with
      | none => simp [hsteam, gogEntryV2_store hg]
      | some pe => simp [hsteam, gogEntryV2_store hg, epicEntryV2_store he]

/-- Witness for C3 (amended): at a concrete GOG observation the lookup
keeps it, and a concrete V2 run has pairwise-distinct store names. -/
theorem reconcile_keeps_first_arrival_witness :
    storeLookup (gogObsCheap :: [gogObsExpensive]) "GOG" = some gogObsCheap ∧
    ((pricesV2 "10" steamPriced steamPriced (.thrown .nonError)).map
      (fun o => o.store)).Nodup :=
  ⟨(reconcile_keeps_first_arrival "GOG" gogObsCheap [gogObsExpensive] (by decide)).1,
    (reconcile_keeps_first_arrival "GOG" gogObsCheap [gogObsExpensive] (by decide)).2
      "10" steamPriced steamPriced (.thrown .nonError)⟩

/-- **C4 counterexample.** One stale persisted row does not force a live
re-fetch: with two fresh available rows and one stale row for the same
identifier, the V1 handler serves the two fresh rows from cache with no
outbound call; likewise the V3 hit test accepts three fresh rows while a
fourth stale row for the identifier exists. -/
theorem stale_row_served_from_cache :
    (∃ r ∈ envStale.db, r.appid = "10" ∧ r.last_updated < envStale.now - oneHourMs) ∧
    (handlerV1 (.ok (ReqBody.mk (some "10"))) envStale).1 =
      { status := 200, body := .prices [cachedEntry rowSteamFresh, cachedEntry rowGogFresh] } ∧
    (handlerV1 (.ok (ReqBody.mk (some "10"))) envStale).2 = [.cacheRead "10"] ∧
    cacheHitV3
      (cacheQuery [rowSteamFresh, rowGogFresh, rowEnebaFresh, rowNuuvemStale] "10" 500)
      = true ∧
    (∃ r ∈ [rowSteamFresh, rowGogFresh, rowEnebaFresh, rowNuuvemStale],
      r.appid = "10" ∧ r.last_updated < 500) := by
  refine ⟨by decide, by decide, by decide, by decide, by decide⟩

/-- **C4 (amended).** Rows older than the freshness window are excluded
by the cache query itself and are invisible to the rest of the run:adding
a stale row to the table never changes the V1 handler's response or
effects — in particular it neither prevents a cache hit on the remaining
fresh rows nor forces a re-fetch. -/
theorem stale_rows_invisible (req : FetchOutcome ReqBody) (r : CacheRow)
    (db : List CacheRow) (ce : Bool) (now : Int) (si sp : FetchOutcome SteamAppDetails)
    (c : FetchOutcome GogCatalogResp) (g : FetchOutcome GogPricesResp)
    (h : r.last_updated < now - oneHourMs) :
    handlerV1 req ⟨r :: db, ce, now, si, sp, c, g⟩ =
      handlerV1 req ⟨db, ce, now, si, sp, c, g⟩ := by
  have hq : ∀ a, cacheQuery (r :: db) a (now - oneHourMs) =
      cacheQuery db a (now - oneHourMs) := by
    intro a
    have hlt : ¬ (now - oneHourMs ≤ r.last_updated) := by omega
    simp only [cacheQuery, List.filter_cons]
    rw [if_neg (by simp [hlt])]
  rcases req with e | body
  · rfl
  · by_cases hb : jsFalsyStr body.appid = true
    · simp [handlerV1, hb]
    · simp only [handlerV1, hb, Bool.false_eq_true, if_false, hq]

/-- Witness for C4 (amended): adding the concrete stale Nuuvem row leaves
the concrete run's outcome unchanged. -/
theorem stale_rows_invisible_witness :
    rowNuuvemStale.last_updated < (oneHourMs + 500) - oneHourMs ∧
    handlerV1 (.ok (ReqBody.mk (some "10")))
        ⟨rowNuuvemStale :: [rowSteamFresh, rowGogFresh], false, oneHourMs + 500,
          .thrown .nonError, .thrown .nonError, .thrown .nonError, .thrown .nonError⟩ =
      handlerV1 (.ok (ReqBody.mk (some "10")))
        ⟨[rowSteamFresh, rowGogFresh], false, oneHourMs + 500,
          .thrown .nonError, .thrown .nonError, .thrown .nonError, .thrown .nonError⟩ :=
  ⟨by decide, stale_rows_invisible (.ok (ReqBody.mk (some "10"))) rowNuuvemStale
    [rowSteamFresh, rowGogFresh] false (oneHourMs + 500)
    (.thrown .nonError) (.thrown .nonError) (.thrown .nonError) (.thrown .nonError)
    (by decide)⟩

/-- **C6.** Adapter failures are contained: for every combination of
adapter outcomes a valid request gets a 200 response whose body is a
`prices` list; a thrown Steam fetch becomes the `available = false`
Steam placeholder, and a thrown GOG fetch contributes no observation
while leaving the Steam result in the response untouched. -/
theorem adapter_failure_isolation (body : ReqBody) (env : EnvV1) (e : JsThrown)
    (appid : String) (si sp : FetchOutcome SteamAppDetails)
    (gp : FetchOutcome GogPricesResp)
    (h : jsFalsyStr body.appid = false) :
    (handlerV1 (.ok body) env).1.status = 200 ∧
    (∃ l, (handlerV1 (.ok body) env).1.body = .prices l) ∧
    steamEntry appid (.thrown e) = steamUnavailable appid ∧
    (steamUnavailable appid).available = false ∧
    gogEntryV1 (gameNameOf si) (.thrown e) gp = none ∧
    pricesV1 appid si sp (.thrown e) gp = [steamEntry appid sp] := by
  have hgog : gogEntryV1 (gameNameOf si) (.thrown e) gp = none := by
    unfold gogEntryV1
    split <;> rfl
  refine ⟨?_, ?_, rfl, rfl, hgog, ?_⟩
  · unfold handlerV1
    simp only [h, Bool.false_eq_true, if_false]
    split <;> rfl
  · unfold handlerV1
    simp only [h, Bool.false_eq_true, if_false]
    split
    · exact ⟨_, rfl⟩
    · exact ⟨_, rfl⟩
  · simp [pricesV1, hgog]

/-- Witness for C6, at a concrete valid request with every upstream call
failing. -/
theorem adapter_failure_isolation_witness :
    (handlerV1 (.ok (ReqBody.mk (some "440"))) envMiss).1.status = 200 ∧
    (∃ l, (handlerV1 (.ok (ReqBody.mk (some "440"))) envMiss).1.body = .prices l) ∧
    steamEntry "440" (.thrown .nonError) = steamUnavailable "440" ∧
    (steamUnavailable "440").available = false ∧
    gogEntryV1 (gameNameOf steamNameOnly) (.thrown .nonError)
      (.ok { httpOk := true, prices := [] }) = none ∧
    pricesV1 "440" steamNameOnly (.thrown .nonError) (.thrown .nonError)
      (.ok { httpOk := true, prices := [] }) = [steamEntry "440" (.thrown .nonError)] :=
  adapter_failure_isolation (ReqBody.mk (some "440")) envMiss .nonError "440"
    steamNameOnly (.thrown .nonError) (.ok { httpOk := true, prices := [] }) (by decide)

/-- **C9 counterexample.** The adapter calls of one run are not a
concurrent fan-out: at a concrete run with a resolved name, the effect
trace settles the first Steam call before the second is issued and
settles both Steam calls before the GOG call is issued, so the trace
violates the fan-out/fan-in (settle-all) shape in which every call starts
before any call settles. -/
theorem adapter_calls_sequential :
    (handlerV1 (.ok (ReqBody.mk (some "620"))) envMiss).2 =
      [.cacheRead "620", .fetchStart .steamAppDetails, .fetchDone .steamAppDetails,
       .fetchStart .steamAppDetails, .fetchDone .steamAppDetails,
       .fetchStart .gogCatalog, .fetchDone .gogCatalog] ∧
    fanOutJoin ((handlerV1 (.ok (ReqBody.mk (some "620"))) envMiss).2) = false := by
  refine ⟨by decide, by decide⟩

/-- **C9 (amended).** Every run's effect trace is fully serialized: each
outbound call settles immediately after it is issued and before anything
else happens, because the handler awaits every adapter call in place —
there is no concurrent fan-out and a slow call delays all later ones. -/
theorem trace_serialized (req : FetchOutcome ReqBody) (env : EnvV1) :
    serializedFetches ((handlerV1 req env).2) = true := by
  rcases req with e | body
  · rfl
  · by_cases hb : jsFalsyStr body.appid = true
    · simp [handlerV1, hb, serializedFetches]
    · unfold handlerV1
      simp only [hb, Bool.false_eq_true, if_false]
      split
      · rfl
      · simp only [List.append_assoc, List.cons_append, List.singleton_append,
          List.nil_append]
        rw [serializedFetches_cacheRead, serializedFetches_fetchEvts,
          serializedFetches_fetchEvts, serializedFetches_gog, serializedFetches_writes]

end GameDealBuddy
